import Mathlib

/-!
# UGND-ARS: verification of the ground-station relay against its design spec

Shallow embedding of the UGND amateur radio ground station relay
(`radio_station.py`, `upra_gnd.py`).  Strings are modelled as `List Char`,
Python `float` arithmetic over the decimal fields of a telemetry line as
exact rationals (`ℚ`; exact at every input appearing below), the spherical
geometry of the pointing computation over `ℝ`, and Python exceptions as
`Except`/`Option` results.
-/

namespace UgndArs

/-- Python exceptions that the relay code can raise. -/
inductive PyError where
  | nameError (n : String)
  | valueError
  | attributeError
  | connectionClosed
deriving DecidableEq

/-! ## Python numeric string parsing

`pyInt` and `pyFloat` model Python's `int(s)` / `float(s)` on the strings
that can reach them here: optional surrounding whitespace, an optional
sign, and decimal digits (with an optional fractional part for `float`).
Exponent notation, `inf`/`nan` and digit-group underscores are not
modelled; none of the fixed-width telemetry fields analysed below use
them.  `float` of a value written `-0…` is IEEE `-0.0`, which compares
equal to `0` (`-0.0 < 0` is `False` in Python); mapping it to `(0 : ℚ)`
preserves exactly that comparison behaviour. -/

/-- Strip leading and trailing whitespace, as `int()`/`float()` do. -/
def pyStrip (s : List Char) : List Char :=
  ((s.dropWhile Char.isWhitespace).reverse.dropWhile Char.isWhitespace).reverse

/-- Numeric value of a digit string (caller checks digits). -/
def natOfDigits (s : List Char) : Nat :=
  s.foldl (fun a c => 10 * a + (c.toNat - 48)) 0

/-- Magnitude part of Python `int(s)`: one or more decimal digits. -/
def pyIntMag (s : List Char) : Option Int :=
  if s ≠ [] && s.all Char.isDigit then some (natOfDigits s : Int) else none

/-- Python `int(s)`: raises `ValueError` (here `none`) on anything that is
not optional whitespace, an optional sign and decimal digits. -/
def pyInt (s : List Char) : Option Int :=
  match pyStrip s with
  | '+' :: rest => pyIntMag rest
  | '-' :: rest => (pyIntMag rest).map Neg.neg
  | rest => pyIntMag rest

/-- Magnitude part of Python `float(s)`: `digits`, `digits.digits`,
`digits.` or `.digits`. -/
def pyFloatMag (s : List Char) : Option ℚ :=
  let ip := s.takeWhile (· ≠ '.')
  match s.dropWhile (· ≠ '.') with
  | [] => if ip ≠ [] && ip.all Char.isDigit then some (natOfDigits ip : ℚ) else none
  | '.' :: frac =>
    if ip.all Char.isDigit && frac.all Char.isDigit && (ip ≠ [] || frac ≠ []) then
      some ((natOfDigits ip : ℚ) + (natOfDigits frac : ℚ) / (10 ^ frac.length : ℚ))
    else none
  | _ => none

/-- Python `float(s)` on the plain decimal forms described above. -/
def pyFloat (s : List Char) : Option ℚ :=
  match pyStrip s with
  | '+' :: rest => pyFloatMag rest
  | '-' :: rest => (pyFloatMag rest).map Neg.neg
  | rest => pyFloatMag rest

/-! ## Frame decoder (`upra_gnd.py`)

`UPRA_TLMPACKET_FMT` is the concrete regular expression of
`upra_gnd.py` lines 7–21; `re.search` scans for its leftmost match
anywhere in the line (it is not anchored).  The only nondeterminism in
the pattern is the two optional sign classes `[+-]?`; a backtracking
engine tries consuming each sign first, so the four alternatives are
tried in the order (lat signed, lng signed), (signed, unsigned),
(unsigned, signed), (unsigned, unsigned). -/

/-- The named groups captured by `UPRA_TLMPACKET_FMT`.  `lat`/`lng`
include the optional sign character, `latmins`/`lngmins` include the
decimal point, exactly as the Python groups do. -/
structure UpraGroups where
  csgn : List Char
  msgid : List Char
  hours : List Char
  mins : List Char
  secs : List Char
  lat : List Char
  latmins : List Char
  lng : List Char
  lngmins : List Char
  alt : List Char
  exttemp : List Char
  obctemp : List Char
  comtemp : List Char
deriving DecidableEq

/-- `.{n}`: exactly `n` characters, none of them a newline. -/
def dotN : Nat → List Char → Option (List Char × List Char)
  | 0, s => some ([], s)
  | _ + 1, [] => none
  | n + 1, c :: s =>
    if c = '\n' then none
    else match dotN n s with
      | some (t, r) => some (c :: t, r)
      | none => none

/-- A literal character of the pattern. -/
def litChar (c : Char) : List Char → Option (List Char)
  | [] => none
  | c' :: s => if c' = c then some s else none

/-- The minutes group `.{2}\..{3}`; the captured text keeps the dot. -/
def minsField (s : List Char) : Option (List Char × List Char) := do
  let (a, s₁) ← dotN 2 s
  let s₂ ← litChar '.' s₁
  let (b, s₃) ← dotN 3 s₂
  some (a ++ '.' :: b, s₃)

/-- `[+-]?` with the choice (consume a sign or not) made by the caller. -/
def signPart (withSign : Bool) (s : List Char) : Option (List Char × List Char) :=
  if withSign then
    match s with
    | c :: rest => if c = '+' || c = '-' then some ([c], rest) else none
    | [] => none
  else some ([], s)

/-- The pattern prefix `\$\$(csgn).{7},(msgid).{3},(hours).{2}(mins).{2}(secs).{2},`. -/
def matchHead (s : List Char) :
    Option (List Char × List Char × List Char × List Char × List Char × List Char) := do
  let s ← litChar '$' s
  let s ← litChar '$' s
  let (csgn, s) ← dotN 7 s
  let s ← litChar ',' s
  let (msgid, s) ← dotN 3 s
  let s ← litChar ',' s
  let (hours, s) ← dotN 2 s
  let (mins, s) ← dotN 2 s
  let (secs, s) ← dotN 2 s
  let s ← litChar ',' s
  some (csgn, msgid, hours, mins, secs, s)

/-- One coordinate segment `[+-]?.{ndig}.{2}\..{3},` with the sign choice
fixed; yields the degrees group (sign included) and the minutes group. -/
def matchCoord (signed : Bool) (ndig : Nat) (s : List Char) :
    Option (List Char × List Char × List Char) := do
  let (sign, s) ← signPart signed s
  let (dig, s) ← dotN ndig s
  let (m, s) ← minsField s
  let s ← litChar ',' s
  some (sign ++ dig, m, s)

/-- The pattern suffix `(alt).{5},(exttemp).{4},(obctemp).{3},(comtemp).{3},`. -/
def matchTail (s : List Char) :
    Option (List Char × List Char × List Char × List Char) := do
  let (alt, s) ← dotN 5 s
  let s ← litChar ',' s
  let (exttemp, s) ← dotN 4 s
  let s ← litChar ',' s
  let (obctemp, s) ← dotN 3 s
  let s ← litChar ',' s
  let (comtemp, s) ← dotN 3 s
  let _ ← litChar ',' s
  some (alt, exttemp, obctemp, comtemp)

/-- Match `UPRA_TLMPACKET_FMT` at the head of `s` with the two `[+-]?`
choices fixed. -/
def matchAtWith (latS lngS : Bool) (s : List Char) : Option UpraGroups := do
  let (csgn, msgid, hours, mins, secs, s) ← matchHead s
  let (lat, latmins, s) ← matchCoord latS 2 s
  let (lng, lngmins, s) ← matchCoord lngS 3 s
  let (alt, exttemp, obctemp, comtemp) ← matchTail s
  some { csgn := csgn, msgid := msgid, hours := hours, mins := mins, secs := secs,
         lat := lat, latmins := latmins, lng := lng, lngmins := lngmins,
         alt := alt, exttemp := exttemp, obctemp := obctemp, comtemp := comtemp }

/-- Match the pattern at the head of `s`, trying the sign alternatives in
backtracking order. -/
def matchAt (s : List Char) : Option UpraGroups :=
  (matchAtWith true true s).orElse fun _ =>
  (matchAtWith true false s).orElse fun _ =>
  (matchAtWith false true s).orElse fun _ =>
  matchAtWith false false s

/-- `re.search(UPRA_TLMPACKET_FMT, s)`: the leftmost match anywhere in
`s`, or `none`. -/
def upraSearch (s : List Char) : Option UpraGroups :=
  match s with
  | [] => matchAt []
  | _ :: rest => (matchAt s).orElse fun _ => upraSearch rest

/-- `parse_degrees` (upra_gnd.py lines 23–27): `float` both fields, then
add the minutes with the sign of the *parsed numeric* degrees value.
The comparison `degrees < 0` is evaluated on the parsed number, so a
field reading `-00` (numeric value `-0.0`, which is not `< 0`) gets its
minutes added positively. -/
def parse_degrees (degrees_str mins_str : List Char) : Option ℚ := do
  let degrees ← pyFloat degrees_str
  let mins := (← pyFloat mins_str) / 60
  some (degrees + mins * (if degrees < 0 then -1 else 1))

/-! ## Ground loop (`BaseRadioStation.listen_from_gnd` and
`UpraRadioStation.parse_gnd_packet`)

The observable behaviour of one iteration of the ground loop is the
sequence of messages handed to `send_to_mcs` plus the exception, if any,
that escapes the iteration.  `UpraRadioStation.parse_gnd_packet`
(upra_gnd.py lines 33–66) is embedded statement by statement; an
uncaught Python exception is the `some PyError` component (neither
`listen_from_gnd` nor `keep_listening_from_gnd` has a handler — the
latter only carries the comment `TODO: Catch Exceptions here somehow`,
radio_station.py line 270). -/

/-- A message handed to `send_to_mcs`, or the would-be pointing report.
`pointingReport` stands for the `manual_antenna_rotation_notice` call
that ends `calc_rotation_for_hab`; it is never emitted, because
upra_gnd.py line 57 calls the `async` method `calc_rotation_for_hab`
without `await`, so the coroutine is created, discarded, and its body
never runs. -/
inductive Event where
  | rawpacket (line : List Char)
  | locationUpra (lat lng : ℚ) (alt : Int) (hour minute second : Int)
  | pointingReport
  | temperatureUpra (temp obctemp comtemp : ℚ)
deriving DecidableEq

/-- The held-back tail of `parse_gnd_packet`: everything after the
`gpshour != 33` test has succeeded (upra_gnd.py lines 44–66).
`datetime.now(timezone.utc).replace(hour=…, minute=…, second=…)` raises
`ValueError` unless each replaced field is in range (0–23 / 0–59), so
the embedding checks those bounds where the code builds `gpstime`. -/
def parseValidTime (m : UpraGroups) (gpshour gpsminute gpssecond : Int) :
    List Event × Option PyError :=
  if 0 ≤ gpshour ∧ gpshour ≤ 23 ∧ 0 ≤ gpsminute ∧ gpsminute ≤ 59 ∧
      0 ≤ gpssecond ∧ gpssecond ≤ 59 then
    match parse_degrees m.lat m.latmins, parse_degrees m.lng m.lngmins, pyInt m.alt with
    | some lat, some lng, some alt =>
      let locEvent := Event.locationUpra lat lng alt gpshour gpsminute gpssecond
      -- upra_gnd.py line 57: `self.calc_rotation_for_hab(...)` without
      -- `await` — no effect (see `Event.pointingReport`)
      match pyFloat m.exttemp, pyFloat m.obctemp, pyFloat m.comtemp with
      | some t, some o, some c =>
        ([locEvent, Event.temperatureUpra (t / 10) (o / 10) (c / 10)], none)
      | _, _, _ => ([locEvent], some PyError.valueError)
    | _, _, _ => ([], some PyError.valueError)
  else ([], some PyError.valueError)

/-- `UpraRadioStation.parse_gnd_packet` (upra_gnd.py lines 33–66):
the events it sends plus the exception escaping it, if any. -/
def parse_gnd_packet (packet : List Char) : List Event × Option PyError :=
  match upraSearch packet with
  | none => ([], none)
  | some m =>
    match pyInt m.hours, pyInt m.mins, pyInt m.secs with
    | some gpshour, some gpsminute, some gpssecond =>
      if gpshour = 33 then ([], none)
      else parseValidTime m gpshour gpsminute gpssecond
    | _, _, _ => ([], some PyError.valueError)

/-- One iteration of `BaseRadioStation.listen_from_gnd`
(radio_station.py lines 257–265): the `rawpacket` message is sent
before the decode attempt, then `parse_gnd_packet` runs. -/
def listen_from_gnd_step (packet : List Char) : List Event × Option PyError :=
  (Event.rawpacket packet :: (parse_gnd_packet packet).fst,
   (parse_gnd_packet packet).snd)

/-- `BaseRadioStation.listen_from_gnd` over a finite prefix of the
equipment's line stream: iterations run in order until the first
uncaught exception, which propagates (there is no handler in
`listen_from_gnd` or `keep_listening_from_gnd`) and ends the loop. -/
def listen_from_gnd : List (List Char) → List Event × Option PyError
  | [] => ([], none)
  | p :: ps =>
    match listen_from_gnd_step p with
    | (evs, some e) => (evs, some e)
    | (evs, none) =>
      let (evs', err) := listen_from_gnd ps
      (evs ++ evs', err)

/-- `BaseRadioStation.keep_listening_from_gnd` (radio_station.py lines
267–270) just connects and delegates to `listen_from_gnd`; it adds no
exception handling around it. -/
def keep_listening_from_gnd (packets : List (List Char)) :
    List Event × Option PyError :=
  listen_from_gnd packets

/-! ### Concrete telemetry lines used below -/

/-- A well-formed telemetry line: call-sign `ABCDEFG`, message id `001`,
time 12:00:00, latitude 40° 30.000′ N, longitude 75° 15.000′ E,
altitude 1000 m, temperatures 20.0 / 25.0 / 23.0 °C. -/
def validLine : List Char :=
  "$$ABCDEFG,001,120000,+4030.000,+07515.000,01000,+200,250,230,".toList

/-- The same line with the hours field set to `33`, the UPRA on-board
computer's "GPS time not known" sentinel. -/
def sentinelLine : List Char :=
  "$$ABCDEFG,001,330000,+4030.000,+07515.000,01000,+200,250,230,".toList

/-- The valid line preceded by a junk character: it no longer *starts*
with the `$$` sentinel, but `re.search` still finds the pattern at
offset 1. -/
def junkPrefixLine : List Char :=
  "x$$ABCDEFG,001,120000,+4030.000,+07515.000,01000,+200,250,230,".toList

/-- A line that matches the layout structurally but whose hours field is
`XX`, so `int(match.group('hours'))` raises `ValueError`. -/
def malformedHoursLine : List Char :=
  "$$ABCDEFG,001,XX0000,+4030.000,+07515.000,01000,+200,250,230,".toList

/-- The spec's description of a structural match, stated in its own
words: the line itself is in the fixed-width layout, i.e. the pattern
matches at the very start of the line ("prefixed with a two-character
sentinel").  Used only to state what the spec asserts; the code's
actual test is the unanchored `upraSearch`. -/
def lineMatchesLayout (s : List Char) : Bool :=
  (matchAt s).isSome

/-! ## MCS session: `send_to_mcs` (radio_station.py lines 91–103)

`send_to_mcs` wraps `self.websocket.send(...)` in a `try` whose only
handler is `except websockets.exceptions.ConnectionClosed`.  The
attribute `self.websocket` starts as `None` (line 86) and is only set
inside a successful `websockets.connect` (line 230), so the channel can
be in three states as far as a send is concerned. -/

/-- The state of `self.websocket` when `send_to_mcs` runs. -/
inductive WsState where
  | noSocket      -- `self.websocket is None`: no connection was ever established
  | closedSocket  -- a connection existed and is now closed
  | openSocket    -- the channel is open
deriving DecidableEq

/-- What the send is observed to do. -/
inductive SendOutcome where
  | sent
  | dropped  -- swallowed by the `except ConnectionClosed` handler, warning logged
deriving DecidableEq

/-- What `self.websocket.send(data)` itself does in each state:
`None.send` is an `AttributeError`; a closed connection raises
`ConnectionClosed`; an open one sends. -/
def websocketSend : WsState → Except PyError Unit
  | .noSocket => .error .attributeError
  | .closedSocket => .error .connectionClosed
  | .openSocket => .ok ()

/-- `BaseRadioStation.send_to_mcs`: only `ConnectionClosed` is caught
(and logged); any other exception propagates to the caller. -/
def send_to_mcs (st : WsState) (_data : List Char) : Except PyError SendOutcome :=
  match websocketSend st with
  | .ok () => .ok .sent
  | .error .connectionClosed => .ok .dropped
  | .error e => .error e

/-! ## MCS session: `keep_listening_from_mcs` (radio_station.py lines 221–248)

Each iteration of the `while True` loop attempts `websockets.connect`;
on success `listen_from_mcs` first runs `mcs_hello` (the three
handshake sends, lines 159–176) and then the receive loop.  The
environment decides how the iteration ends; the loop body reacts:
`InvalidURI` reprompts for an address, a `WebSocketException` or any
other exception is followed by `mcs_reconnect_attempt`, a sleep of
`MCS_RECONNECT_SECS = 15` seconds — but a receive loop that ends
*without* raising (the channel closed cleanly) just falls out of the
`async with` and the next iteration connects immediately. -/

/-- How one iteration of the MCS loop ends, decided by the environment. -/
inductive McsOutcome where
  | connectInvalid  -- websockets.connect raises InvalidURI
  | connectFail     -- websockets.connect raises a WebSocketException
  | listenClean     -- connection established; receive loop ends without raising
  | listenError     -- connection established; a WebSocketException is raised
  | listenCrash     -- connection established; some other exception is raised
deriving DecidableEq

/-- The externally observable actions of the MCS loop. -/
inductive McsAction where
  | connectAttempt
  | sendNameArs        -- `name.ars`   (mcs_hello, first send)
  | sendLocationArs    -- `location.ars` (mcs_hello, second send)
  | sendMissionListGet -- `mission.list.get` (mcs_hello, third send)
  | receiveLoop        -- the `async for` over inbound messages runs
  | reconnectWait (secs : Nat)  -- `mcs_reconnect_attempt`: sleep before retrying
  | setupAddress       -- `setup_mcs_address` reprompt on InvalidURI
deriving DecidableEq

/-- `MCS_RECONNECT_SECS` (radio_station.py line 53). -/
def MCS_RECONNECT_SECS : Nat := 15

/-- Actions of one iteration of the `while True` body for a given
outcome.  On any successful connection the handshake of `mcs_hello`
runs before the receive loop; only the exception paths sleep. -/
def mcsIter : McsOutcome → List McsAction
  | .connectInvalid => [.connectAttempt, .setupAddress]
  | .connectFail => [.connectAttempt, .reconnectWait MCS_RECONNECT_SECS]
  | .listenClean =>
    [.connectAttempt, .sendNameArs, .sendLocationArs, .sendMissionListGet, .receiveLoop]
  | .listenError =>
    [.connectAttempt, .sendNameArs, .sendLocationArs, .sendMissionListGet, .receiveLoop,
     .reconnectWait MCS_RECONNECT_SECS]
  | .listenCrash =>
    [.connectAttempt, .sendNameArs, .sendLocationArs, .sendMissionListGet, .receiveLoop,
     .reconnectWait MCS_RECONNECT_SECS]

/-- `BaseRadioStation.keep_listening_from_mcs` over a finite prefix of
iteration outcomes: the concatenated actions of the loop. -/
def keep_listening_from_mcs (script : List McsOutcome) : List McsAction :=
  script.flatMap mcsIter

/-! ## Geometry engine: `calc_rotation_for_hab` (radio_station.py lines 187–218)

The body converts the target coordinates to radians and then reads the
bare names `station_lat`, `station_lng` (lines 193–194) and
`station_alt` (line 208).  Those names are *not* attributes here — the
station position lives in `self.station_lat` etc. — and they are not
bound at module level either, so Python raises
`NameError: name 'station_lat' is not defined` on line 193 of every
call.  The embedding routes each bare-name read through the module
namespace of `radio_station.py` to model exactly that.

The trigonometric formulas themselves are embedded over `ℝ`, with
`math.atan2(y, x)` as the argument of the complex number `x + y·i`
(range `(-π, π]`, matching `atan2` everywhere except that IEEE `-0.0`
inputs are not distinguishable in `ℝ`). -/

/-- `math.radians`. -/
noncomputable def radiansOf (d : ℝ) : ℝ := d * Real.pi / 180

/-- `math.degrees`. -/
noncomputable def degreesOf (r : ℝ) : ℝ := r * 180 / Real.pi

/-- `math.atan2 y x`. -/
noncomputable def atan2 (y x : ℝ) : ℝ := Complex.arg ⟨x, y⟩

/-- `E_RADIUS` (radio_station.py line 13). -/
noncomputable def E_RADIUS : ℝ := 6371000

/-- The module-level bindings of `radio_station.py` that hold numbers.
The names `station_lat`, `station_lng`, `station_alt` are *not* among
the module's bindings (which also include functions and classes,
irrelevant to a numeric read). -/
noncomputable def radioStationGlobals (n : String) : Option ℝ :=
  if n = "E_RADIUS" then some 6371000
  else if n = "MCS_RECONNECT_SECS" then some 15
  else none

/-- Reading a bare name inside a method body: module namespace lookup,
`NameError` when unbound. -/
noncomputable def resolveGlobal (n : String) : Except PyError ℝ :=
  match radioStationGlobals n with
  | some v => .ok v
  | none => .error (.nameError n)

/-- `BaseRadioStation.calc_rotation_for_hab`, line by line.  The result
would be the (azimuth, elevation, slant range) triple reported by
`manual_antenna_rotation_notice`; the bare-name reads are where Python
resolves `station_lat`, `station_lng`, `station_alt`. -/
noncomputable def calc_rotation_for_hab (hab_lat hab_lng hab_alt : ℝ) :
    Except PyError (ℝ × ℝ × ℝ) := do
  let hab_lat_rad := radiansOf hab_lat
  let hab_lng_rad := radiansOf hab_lng
  let station_lat ← resolveGlobal "station_lat"    -- line 193
  let station_lng ← resolveGlobal "station_lng"    -- line 194
  let ars_lat_rad := radiansOf station_lat
  let ars_lng_rad := radiansOf station_lng
  let d_lng := hab_lng_rad - ars_lng_rad
  let sa := Real.cos hab_lat_rad * Real.sin d_lng
  let sb := Real.cos ars_lat_rad * Real.sin hab_lat_rad -
            Real.sin ars_lat_rad * Real.cos hab_lat_rad * Real.cos d_lng
  let antenna_azimuth := degreesOf (atan2 sa sb)
  let aa := Real.sqrt (sa ^ 2 + sb ^ 2)            -- math.hypot sa sb
  let ab := Real.sin ars_lat_rad * Real.sin hab_lat_rad +
            Real.cos ars_lat_rad * Real.cos hab_lat_rad * Real.cos d_lng
  let angle_at_centre := atan2 aa ab
  let station_alt ← resolveGlobal "station_alt"    -- line 208
  let ta := E_RADIUS + station_alt
  let tb := E_RADIUS + hab_alt
  let ea := Real.cos angle_at_centre * tb - ta
  let eb := Real.sin angle_at_centre * tb
  let antenna_elevation_rad := atan2 ea eb
  let antenna_elevation :=
    if antenna_elevation_rad < 0 then 0 else degreesOf antenna_elevation_rad
  let target_distance :=
    Real.sqrt (ta * ta + tb * tb - 2 * tb * ta * Real.cos angle_at_centre)
  return (antenna_azimuth, antenna_elevation, target_distance)

end UgndArs

/-! # Theorems: the spec's claims checked against the embedded code -/

namespace UgndArs

set_option maxRecDepth 8000

/-! ## Helper lemmas -/

/-- When the hours group parses to the sentinel `33`, `parse_gnd_packet`
sends nothing at all: either the `if gpshour != 33` test fails and the
body is skipped, or one of the earlier `int(...)` calls raises — in both
cases no message is produced. -/
theorem upraSearch_hours33_no_events (p : List Char) (m : UpraGroups)
    (hm : upraSearch p = some m) (h33 : pyInt m.hours = some 33) :
    (parse_gnd_packet p).fst = [] := by
  cases hmi : pyInt m.mins <;> cases hsec : pyInt m.secs <;>
    simp [parse_gnd_packet, hm, h33, hmi, hsec]

/-! ## C1 — the pointing computation never completes -/

/-- C1: the claim says `calc_rotation_for_hab` completes for every
station and target position and never throws.  In fact its body reads
the bare names `station_lat` / `station_lng` / `station_alt`
(radio_station.py lines 193, 194, 208) instead of the `self.station_*`
attributes; those names are unbound, so every call raises
`NameError: name 'station_lat' is not defined` at line 193, for all
inputs. -/
theorem calc_rotation_for_hab_raises_name_error (hab_lat hab_lng hab_alt : ℝ) :
    calc_rotation_for_hab hab_lat hab_lng hab_alt =
      Except.error (PyError.nameError "station_lat") := rfl

/-! ## C2 — no azimuth is ever produced -/

/-- C2: the claim says the azimuth produced by the pointing computation
equals `degrees(atan2(sa, sb))` normalised into [0, 360).  The
computation produces no azimuth at all: at the claim's own kind of
scenario — a target at latitude 0°, longitude −90° — the call raises
`NameError` at line 193, before the `sa`/`sb` expressions (lines
198–199) or the azimuth assignment (line 201) ever execute.  (Line 201
as written also applies no normalisation to `degrees(atan2(sa, sb))`.) -/
theorem calc_rotation_azimuth_scenario_errors :
    calc_rotation_for_hab 0 (-90) 0 =
      Except.error (PyError.nameError "station_lat") := rfl

/-! ## C3 — a valid line produces location and temperature but no
pointing report -/

/-- C3: the claim says that for a successfully decoded line the ground
loop sends `location.upra`, then computes **and reports** the pointing
vector, then sends `temperature.upra`.  The embedded iteration on a
well-formed line shows the actual trace: `rawpacket`, `location.upra`,
`temperature.upra` — and no `Event.pointingReport` anywhere, because
line 57 creates the `calc_rotation_for_hab` coroutine without `await`,
so the geometry never runs (and were it awaited, it would raise
`NameError`, see `calc_rotation_for_hab_raises_name_error`). -/
theorem upra_valid_line_no_pointing_report :
    listen_from_gnd_step validLine =
      ([Event.rawpacket validLine,
        Event.locationUpra (81 / 2) (301 / 4) 1000 12 0 0,
        Event.temperatureUpra 20 25 23], none) := by
  with_unfolding_all decide

/-! ## C4 — sentinel hours: only the rawpacket is relayed -/

/-- C4: for every line whose hours group parses to the sentinel `33`,
the iteration of the ground loop sends exactly the `rawpacket` message:
no location message, no fix, no pointing update. -/
theorem upra_sentinel_only_rawpacket (p : List Char) (m : UpraGroups)
    (hm : upraSearch p = some m) (h33 : pyInt m.hours = some 33) :
    (listen_from_gnd_step p).fst = [Event.rawpacket p] := by
  have h := upraSearch_hours33_no_events p m hm h33
  simp [listen_from_gnd_step, h]

/-- The groups that `UPRA_TLMPACKET_FMT` captures on `sentinelLine`. -/
def sentinelGroups : UpraGroups :=
  { csgn := "ABCDEFG".toList, msgid := "001".toList, hours := "33".toList,
    mins := "00".toList, secs := "00".toList, lat := "+40".toList,
    latmins := "30.000".toList, lng := "+075".toList, lngmins := "15.000".toList,
    alt := "01000".toList, exttemp := "+200".toList, obctemp := "250".toList,
    comtemp := "230".toList }

/-- C4 (witness): the sentinel line instantiates the hypotheses. -/
theorem upra_sentinel_only_rawpacket_witness :
    (listen_from_gnd_step sentinelLine).fst = [Event.rawpacket sentinelLine] :=
  upra_sentinel_only_rawpacket sentinelLine sentinelGroups
    (by with_unfolding_all decide) (by with_unfolding_all decide)

/-! ## C5 — rejection of non-matching lines, and the unanchored search -/

/-- C5 (counterexample): the claim describes a structural match as the
line being in the fixed-width layout ("two-character sentinel prefix",
…).  `junkPrefixLine` does not match that description — the pattern
fails at the start of the line — yet the decoder still produces a fix
with both messages, because `re.search` finds the pattern at offset 1. -/
theorem upra_unanchored_decode_cex :
    lineMatchesLayout junkPrefixLine = false ∧
    (parse_gnd_packet junkPrefixLine).fst =
      [Event.locationUpra (81 / 2) (301 / 4) 1000 12 0 0,
       Event.temperatureUpra 20 25 23] := by
  with_unfolding_all decide

/-- C5 (amended): a line in which the pattern occurs **nowhere** (the
unanchored `re.search` fails) is rejected: `parse_gnd_packet` returns
no events and no error, the NotMatched outcome. -/
theorem upra_no_match_no_fix (p : List Char) (h : upraSearch p = none) :
    parse_gnd_packet p = ([], none) := by
  simp [parse_gnd_packet, h]

/-- C5 (witness): `hello` matches nowhere and is rejected. -/
theorem upra_no_match_no_fix_witness :
    parse_gnd_packet ("hello".toList) = ([], none) :=
  upra_no_match_no_fix ("hello".toList) (by with_unfolding_all decide)

/-! ## C6 — the sign of a `-00` degrees field is lost -/

/-- C6: the claim says the decoded value is |degrees| + minutes/60 with
the sign taken from the degrees field, explicitly including `-0`.  But
`float("-00")` is `-0.0`, and `-0.0 < 0` is false, so `parse_degrees`
adds the minutes **positively**: `parse_degrees("-00", "30.000")`
returns +0.5, not the −0.5 the claim requires. -/
theorem parse_degrees_neg_zero :
    parse_degrees ("-00".toList) ("30.000".toList) = some (1 / 2) ∧
    parse_degrees ("-00".toList) ("30.000".toList) ≠ some (-(1 / 2)) := by
  with_unfolding_all decide

/-! ## C7 — a malformed numeric sub-field kills the ground loop -/

/-- C7: the claim says a structurally matching line with a malformed
numeric sub-field behaves like NotMatched, with no error escaping the
ground loop and the relay continuing.  In fact `int('XX')` raises
`ValueError`, no handler exists in `listen_from_gnd` or
`keep_listening_from_gnd` (only the `TODO: Catch Exceptions here
somehow` comment), so the error escapes after the `rawpacket` send and
the following well-formed line is never processed. -/
theorem upra_malformed_field_error_escapes :
    keep_listening_from_gnd [malformedHoursLine, validLine] =
      ([Event.rawpacket malformedHoursLine], some PyError.valueError) := by
  with_unfolding_all decide

/-! ## C8 — sends on a never-opened channel raise -/

/-- C8 (counterexample): the claim says that in **every** state in
which the channel is not open — including never yet connected —
`send_to_mcs` drops the message and never raises.  But before the first
successful connection `self.websocket` is `None`, and `None.send(...)`
raises `AttributeError`, which the `except ConnectionClosed` clause
does not catch. -/
theorem send_to_mcs_never_connected_raises :
    send_to_mcs WsState.noSocket [] = Except.error PyError.attributeError := rfl

/-- C8 (amended): when a connection existed and has closed, the send
raises `ConnectionClosed`, which is caught and logged: the message is
dropped and nothing propagates to the caller; on an open channel the
message is sent.  Only the never-connected (`websocket is None`) state
escapes this contract. -/
theorem send_to_mcs_closed_channel_drops (data : List Char) :
    send_to_mcs WsState.closedSocket data = Except.ok SendOutcome.dropped ∧
    send_to_mcs WsState.openSocket data = Except.ok SendOutcome.sent :=
  ⟨rfl, rfl⟩

/-! ## C9 — reconnect backoff applies to error closes only -/

/-- C9 (counterexample): the claim says **any** closure of an
established channel ("abruptly or otherwise") is followed by exactly
one ≥15 s wait before the next connection attempt.  A cleanly closed
channel ends the `async for` without an exception: the iteration falls
out of the `async with` and the loop reconnects immediately — the trace
of two clean-close iterations contains two connection attempts and no
`reconnectWait` at all. -/
theorem mcs_clean_close_no_wait :
    keep_listening_from_mcs [McsOutcome.listenClean, McsOutcome.listenClean] =
      [McsAction.connectAttempt, McsAction.sendNameArs, McsAction.sendLocationArs,
       McsAction.sendMissionListGet, McsAction.receiveLoop,
       McsAction.connectAttempt, McsAction.sendNameArs, McsAction.sendLocationArs,
       McsAction.sendMissionListGet, McsAction.receiveLoop] := by
  decide

/-- C9 (amended): when an established channel closes **abruptly** (the
receive loop raises `WebSocketException`), exactly one
`reconnectWait 15` action separates it from whatever follows, and every
iteration — in particular the reconnection — starts with a connection
attempt; on success the full handshake (`name.ars`, `location.ars`,
`mission.list.get`) precedes the receive loop. -/
theorem mcs_error_close_one_wait :
    (∀ pre post : List McsOutcome,
        keep_listening_from_mcs (pre ++ McsOutcome.listenError :: post) =
          keep_listening_from_mcs pre ++
            ([McsAction.connectAttempt, McsAction.sendNameArs, McsAction.sendLocationArs,
              McsAction.sendMissionListGet, McsAction.receiveLoop,
              McsAction.reconnectWait 15] ++ keep_listening_from_mcs post)) ∧
    (∀ o : McsOutcome, (mcsIter o).head? = some McsAction.connectAttempt) := by
  constructor
  · intro pre post
    simp [keep_listening_from_mcs, mcsIter, MCS_RECONNECT_SECS]
  · intro o
    cases o <;> rfl

/-! ## C10 — sentinel hours: no temperature message either -/

/-- C10: for every line whose hours group parses to the sentinel `33`,
no `temperature.upra` message is sent: the temperature send sits inside
the `if gpshour != 33` block, so the sentinel path emits nothing beyond
the rawpacket relay. -/
theorem upra_sentinel_no_temperature (p : List Char) (m : UpraGroups)
    (hm : upraSearch p = some m) (h33 : pyInt m.hours = some 33)
    (t o c : ℚ) :
    Event.temperatureUpra t o c ∉ (listen_from_gnd_step p).fst := by
  have h := upraSearch_hours33_no_events p m hm h33
  simp [listen_from_gnd_step, h]

/-- C10 (witness): instantiated on the sentinel line. -/
theorem upra_sentinel_no_temperature_witness :
    Event.temperatureUpra 20 25 23 ∉ (listen_from_gnd_step sentinelLine).fst :=
  upra_sentinel_no_temperature sentinelLine sentinelGroups
    (by with_unfolding_all decide) (by with_unfolding_all decide) 20 25 23

end UgndArs
